import Mathlib

/-!
Shallow embedding of `src/ecommerce.py` (e-commerce analytics dashboard).

A pandas `DataFrame` is modelled as a `Table`: a list of column names
together with a list of rows, where a row is an association list from
column names to cell values.  Cell values are strings or rational
numbers (`Value`).  The sidebar widget state of `apply_filters` is
modelled as a `Selections` record; the widget rendering itself is out of
scope, only the filtering core (lines 59-76 of `ecommerce.py`) is
embedded.
-/

/-- A cell value of the dataset: a label column holds `str`, a numeric
column holds `num` (currency amounts, day counts, review scores). -/
inductive Value where
  | str : String → Value
  | num : ℚ → Value
deriving DecidableEq, Repr

/-- One row of the dataset: an association list from column name to value. -/
abbrev Row := List (String × Value)

/-- A tabular dataset: the column names plus the rows. -/
structure Table where
  cols : List String
  rows : List Row
deriving DecidableEq, Repr

/-- Cell lookup, `row[col]`: the first binding of the column in the row. -/
def getCell (r : Row) (c : String) : Option Value :=
  (r.find? (fun p => p.1 = c)).map (fun p => p.2)

/-- Numeric view of an optional cell (pandas numeric columns). -/
def toNum : Option Value → Option ℚ
  | some (Value.num q) => some q
  | _ => none

/-- The numeric cells of column `c`, in row order. -/
def numCells (t : Table) (c : String) : List ℚ :=
  t.rows.filterMap (fun r => toNum (getCell r c))

/-- The (present) cells of column `c`, in row order. -/
def colValues (t : Table) (c : String) : List Value :=
  t.rows.filterMap (fun r => getCell r c)

/-- `Series.sum` over the numeric cells of a column. -/
def sumCol (t : Table) (c : String) : ℚ :=
  (numCells t c).foldl (· + ·) 0

/-- `Series.mean` over the numeric cells of a column (total / count). -/
def meanCol (t : Table) (c : String) : ℚ :=
  sumCol t c / (numCells t c).length

/-- `Series.nunique`: number of distinct (non-missing) cells of a column. -/
def nunique (t : Table) (c : String) : Nat :=
  (colValues t c).dedup.length

/-- The sidebar selections consumed by `apply_filters`: three
multi-selects (with sentinel element `Value.str "All"`), the review-score
slider range, and the payment-type single choice. -/
structure Selections where
  months : List Value
  categories : List Value
  states : List Value
  minReview : ℚ
  maxReview : ℚ
  payment : Value
deriving DecidableEq, Repr

/-- `filtered_df['order_month'].isin(selected_months)` row predicate. -/
def isinPred (c : String) (sel : List Value) (r : Row) : Bool :=
  match getCell r c with
  | some v => sel.contains v
  | none => false

/-- `(filtered_df['review_score'] >= min) & (filtered_df['review_score'] <= max)`
row predicate; a missing or non-numeric cell fails both comparisons. -/
def reviewPred (lo hi : ℚ) (r : Row) : Bool :=
  match toNum (getCell r "review_score") with
  | some q => decide (lo ≤ q) && decide (q ≤ hi)
  | none => false

/-- `filtered_df['payment_type'] == selected_payment` row predicate. -/
def eqPred (c : String) (sel : Value) (r : Row) : Bool :=
  match getCell r c with
  | some v => v = sel
  | none => false

/-- `apply_filters` (lines 59-76 of `ecommerce.py`): starting from a copy
of `df`, each predicate is applied in sequence, guarded by the existence
of its backing column and (for the multi-selects and the payment choice)
by the selection not being the `"All"` sentinel. -/
def apply_filters (t : Table) (s : Selections) : Table :=
  let r0 := t.rows
  let r1 := if "order_month" ∈ t.cols ∧ Value.str "All" ∉ s.months then
      r0.filter (isinPred "order_month" s.months) else r0
  let r2 := if "product_category_name_english" ∈ t.cols ∧ Value.str "All" ∉ s.categories then
      r1.filter (isinPred "product_category_name_english" s.categories) else r1
  let r3 := if "customer_state" ∈ t.cols ∧ Value.str "All" ∉ s.states then
      r2.filter (isinPred "customer_state" s.states) else r2
  let r4 := if "review_score" ∈ t.cols then
      r3.filter (reviewPred s.minReview s.maxReview) else r3
  let r5 := if "payment_type" ∈ t.cols ∧ s.payment ≠ Value.str "All" then
      r4.filter (eqPred "payment_type" s.payment) else r4
  ⟨t.cols, r5⟩

/-- The six scalar aggregates of `calculate_kpis`. -/
structure KPIs where
  total_orders : Nat
  total_revenue : ℚ
  avg_rating : ℚ
  avg_freight_cost : ℚ
  total_customers : Nat
  avg_price : ℚ
deriving DecidableEq, Repr

/-- `calculate_kpis` (lines 78-89 of `ecommerce.py`): all six metrics are
0 on an empty table; otherwise each metric is computed from its backing
column when present and defaults to 0 when absent. -/
def calculate_kpis (t : Table) : KPIs :=
  if t.rows.length = 0 then
    ⟨0, 0, 0, 0, 0, 0⟩
  else
    { total_orders := t.rows.length
      total_revenue := if "total_order_value" ∈ t.cols then sumCol t "total_order_value" else 0
      avg_rating := if "review_score" ∈ t.cols then meanCol t "review_score" else 0
      avg_freight_cost := if "freight_value" ∈ t.cols then meanCol t "freight_value" else 0
      total_customers := if "customer_unique_id" ∈ t.cols then nunique t "customer_unique_id" else 0
      avg_price := if "price" ∈ t.cols then meanCol t "price" else 0 }

/-- The single row predicate equivalent to the five sequential guarded
filters of `apply_filters`: each conjunct is the stage's predicate when
its guard holds and `true` (stage skipped) otherwise. -/
def rowPass (cols : List String) (s : Selections) (r : Row) : Bool :=
  (if "order_month" ∈ cols ∧ Value.str "All" ∉ s.months then
      isinPred "order_month" s.months r else true)
  && ((if "product_category_name_english" ∈ cols ∧ Value.str "All" ∉ s.categories then
      isinPred "product_category_name_english" s.categories r else true)
  && ((if "customer_state" ∈ cols ∧ Value.str "All" ∉ s.states then
      isinPred "customer_state" s.states r else true)
  && ((if "review_score" ∈ cols then
      reviewPred s.minReview s.maxReview r else true)
  && (if "payment_type" ∈ cols ∧ s.payment ≠ Value.str "All" then
      eqPred "payment_type" s.payment r else true))))

/-- A guarded filtering stage is a filter by the guarded predicate. -/
lemma if_filter (g : Prop) [Decidable g] (p : Row → Bool) (l : List Row) :
    (if g then l.filter p else l) = l.filter (fun r => if g then p r else true) := by
  split_ifs with h
  · rfl
  · exact (List.filter_eq_self.mpr (fun r _ => rfl)).symm

/-- Normal form of `apply_filters`: one pass of `List.filter` with the
conjunction of the five guarded predicates. -/
lemma apply_filters_eq (t : Table) (s : Selections) :
    apply_filters t s = ⟨t.cols, t.rows.filter (rowPass t.cols s)⟩ := by
  unfold apply_filters
  dsimp only
  rw [if_filter, if_filter, if_filter, if_filter, if_filter]
  simp only [List.filter_filter]
  congr 1
  refine List.filter_congr (fun r _ => ?_)
  simp only [rowPass]
  generalize (if "order_month" ∈ t.cols ∧ Value.str "All" ∉ s.months then
      isinPred "order_month" s.months r else true) = b1
  generalize (if "product_category_name_english" ∈ t.cols ∧ Value.str "All" ∉ s.categories then
      isinPred "product_category_name_english" s.categories r else true) = b2
  generalize (if "customer_state" ∈ t.cols ∧ Value.str "All" ∉ s.states then
      isinPred "customer_state" s.states r else true) = b3
  generalize (if "review_score" ∈ t.cols then
      reviewPred s.minReview s.maxReview r else true) = b4
  generalize (if "payment_type" ∈ t.cols ∧ s.payment ≠ Value.str "All" then
      eqPred "payment_type" s.payment r else true) = b5
  cases b1 <;> cases b2 <;> cases b3 <;> cases b4 <;> cases b5 <;> rfl

/-- The lower end of the observed review-score range: the slider default
`int(df['review_score'].min())`; `1` when the column yields no numeric
cell (mirroring the `min_review, max_review = 1, 5` fallback). -/
def observedMin (t : Table) : ℚ :=
  match numCells t "review_score" with
  | [] => 1
  | q :: qs => qs.foldl min q

/-- The upper end of the observed review-score range: the slider default
`int(df['review_score'].max())`; `5` when the column yields no numeric
cell. -/
def observedMax (t : Table) : ℚ :=
  match numCells t "review_score" with
  | [] => 5
  | q :: qs => qs.foldl max q

lemma foldl_min_le_init (l : List ℚ) (a : ℚ) : l.foldl min a ≤ a := by
  induction l generalizing a with
  | nil => exact le_refl a
  | cons b l ih => exact le_trans (ih (min a b)) (min_le_left a b)

lemma foldl_min_le_mem (l : List ℚ) (a x : ℚ) (hx : x ∈ l) : l.foldl min a ≤ x := by
  induction l generalizing a with
  | nil => cases hx
  | cons b l ih =>
    rcases List.mem_cons.mp hx with h | h
    · subst h
      exact le_trans (foldl_min_le_init l (min a x)) (min_le_right a x)
    · exact ih (min a b) h

lemma init_le_foldl_max (l : List ℚ) (a : ℚ) : a ≤ l.foldl max a := by
  induction l generalizing a with
  | nil => exact le_refl a
  | cons b l ih => exact le_trans (le_max_left a b) (ih (max a b))

lemma mem_le_foldl_max (l : List ℚ) (a x : ℚ) (hx : x ∈ l) : x ≤ l.foldl max a := by
  induction l generalizing a with
  | nil => cases hx
  | cons b l ih =>
    rcases List.mem_cons.mp hx with h | h
    · subst h
      exact le_trans (le_max_right a x) (init_le_foldl_max l (max a x))
    · exact ih (max a b) h

lemma observedMin_le (t : Table) (q : ℚ) (hq : q ∈ numCells t "review_score") :
    observedMin t ≤ q := by
  unfold observedMin
  cases h : numCells t "review_score" with
  | nil => rw [h] at hq; cases hq
  | cons a l =>
    rw [h] at hq
    rcases List.mem_cons.mp hq with h1 | h1
    · subst h1; exact foldl_min_le_init l q
    · exact foldl_min_le_mem l a q h1

lemma le_observedMax (t : Table) (q : ℚ) (hq : q ∈ numCells t "review_score") :
    q ≤ observedMax t := by
  unfold observedMax
  cases h : numCells t "review_score" with
  | nil => rw [h] at hq; cases hq
  | cons a l =>
    rw [h] at hq
    rcases List.mem_cons.mp hq with h1 | h1
    · subst h1; exact init_le_foldl_max l q
    · exact mem_le_foldl_max l a q h1

/-- C2: For every table, filtering with every selection unrestricted
(every multi-select containing the sentinel `"All"`, the review-score
range equal to the full observed range of the table, the payment choice
equal to `"All"`, and review-score cells numeric as pandas requires for
the slider) returns a table equal to the input table. -/
theorem apply_filters_all_unrestricted (t : Table) (s : Selections)
    (hm : Value.str "All" ∈ s.months)
    (hc : Value.str "All" ∈ s.categories)
    (hst : Value.str "All" ∈ s.states)
    (hp : s.payment = Value.str "All")
    (hlo : s.minReview = observedMin t)
    (hhi : s.maxReview = observedMax t)
    (hnum : ∀ r ∈ t.rows, "review_score" ∈ t.cols →
      (toNum (getCell r "review_score")).isSome) :
    apply_filters t s = t := by
  have hrows : t.rows.filter (rowPass t.cols s) = t.rows := by
    refine List.filter_eq_self.mpr (fun r hr => ?_)
    have h1 : ¬("order_month" ∈ t.cols ∧ Value.str "All" ∉ s.months) := fun h => h.2 hm
    have h2 : ¬("product_category_name_english" ∈ t.cols ∧ Value.str "All" ∉ s.categories) :=
      fun h => h.2 hc
    have h3 : ¬("customer_state" ∈ t.cols ∧ Value.str "All" ∉ s.states) := fun h => h.2 hst
    have h5 : ¬("payment_type" ∈ t.cols ∧ s.payment ≠ Value.str "All") := fun h => h.2 hp
    simp only [rowPass, if_neg h1, if_neg h2, if_neg h3, if_neg h5, Bool.true_and, Bool.and_true]
    by_cases h4 : "review_score" ∈ t.cols
    · simp only [if_pos h4]
      obtain ⟨q, hq⟩ := Option.isSome_iff_exists.mp (hnum r hr h4)
      have hqmem : q ∈ numCells t "review_score" := List.mem_filterMap.mpr ⟨r, hr, hq⟩
      have hql : s.minReview ≤ q := hlo ▸ observedMin_le t q hqmem
      have hqh : q ≤ s.maxReview := hhi ▸ le_observedMax t q hqmem
      simp [reviewPred, hq, hql, hqh]
    · simp only [if_neg h4]
  rw [apply_filters_eq, hrows]

/-- C6: `apply_filters` is idempotent — filtering an already-filtered
table again with the same selections yields the same result. -/
theorem apply_filters_idem (t : Table) (s : Selections) :
    apply_filters (apply_filters t s) s = apply_filters t s := by
  rw [apply_filters_eq t s, apply_filters_eq ⟨t.cols, t.rows.filter (rowPass t.cols s)⟩ s]
  dsimp only
  congr 1
  rw [List.filter_filter]
  exact List.filter_congr (fun r _ => Bool.and_self _)

/-- C9: `apply_filters` produces a derived view: the column list of the
result is that of the source, the result rows are a sublist of the source
rows, and every row of the result is a row of the source; the source
table itself is an unchanged input of the pure embedding. -/
theorem apply_filters_frame (t : Table) (s : Selections) :
    (apply_filters t s).cols = t.cols ∧
    List.Sublist (apply_filters t s).rows t.rows ∧
    ∀ r ∈ (apply_filters t s).rows, r ∈ t.rows := by
  rw [apply_filters_eq]
  exact ⟨rfl, List.filter_sublist t.rows,
    fun r hr => List.mem_of_mem_filter hr⟩

/-- Concrete two-row table used by the witnesses. -/
def tTwo : Table :=
  ⟨["customer_state", "review_score"],
   [[("customer_state", Value.str "SP"), ("review_score", Value.num 4)],
    [("customer_state", Value.str "RJ"), ("review_score", Value.num 5)]]⟩

/-- Unrestricted selections for `tTwo`: every multi-select is `["All"]`,
the slider is the observed range `[4, 5]`, payment is `"All"`. -/
def sAll : Selections :=
  ⟨[Value.str "All"], [Value.str "All"], [Value.str "All"], 4, 5, Value.str "All"⟩

/-- Witness for C2 at a concrete table and unrestricted selections. -/
theorem apply_filters_all_unrestricted_witness : apply_filters tTwo sAll = tTwo :=
  apply_filters_all_unrestricted tTwo sAll (by decide) (by decide) (by decide)
    (by decide) (by decide) (by decide) (by decide)

/-- C3: `calculate_kpis` of a zero-row table is exactly the all-zero
record for all six metrics. -/
theorem calculate_kpis_empty (t : Table) (h : t.rows = []) :
    calculate_kpis t = ⟨0, 0, 0, 0, 0, 0⟩ := by
  simp [calculate_kpis, h]

/-- Table with no columns and no rows, used by witnesses. -/
def tEmpty : Table := ⟨[], []⟩

/-- Witness for C3 at the concrete empty table. -/
theorem calculate_kpis_empty_witness :
    tEmpty.rows = [] ∧ calculate_kpis tEmpty = ⟨0, 0, 0, 0, 0, 0⟩ :=
  ⟨rfl, calculate_kpis_empty tEmpty rfl⟩

/-- C5: on a non-empty table `total_orders` is the row count, and each of
the other five metrics is 0 whenever its backing column is absent. -/
theorem calculate_kpis_nonempty (t : Table) (h : t.rows ≠ []) :
    (calculate_kpis t).total_orders = t.rows.length ∧
    ("total_order_value" ∉ t.cols → (calculate_kpis t).total_revenue = 0) ∧
    ("review_score" ∉ t.cols → (calculate_kpis t).avg_rating = 0) ∧
    ("freight_value" ∉ t.cols → (calculate_kpis t).avg_freight_cost = 0) ∧
    ("customer_unique_id" ∉ t.cols → (calculate_kpis t).total_customers = 0) ∧
    ("price" ∉ t.cols → (calculate_kpis t).avg_price = 0) := by
  have hlen : ¬t.rows.length = 0 := by
    simpa [List.length_eq_zero] using h
  refine ⟨by simp [calculate_kpis, hlen], fun h2 => by simp [calculate_kpis, hlen, h2],
    fun h2 => by simp [calculate_kpis, hlen, h2], fun h2 => by simp [calculate_kpis, hlen, h2],
    fun h2 => by simp [calculate_kpis, hlen, h2], fun h2 => by simp [calculate_kpis, hlen, h2]⟩

/-- Table with one (empty) row and no columns, used by witnesses. -/
def tOne : Table := ⟨[], [[]]⟩

/-- Witness for C5 at a concrete one-row table with no columns. -/
theorem calculate_kpis_nonempty_witness :
    tOne.rows ≠ [] ∧
    ((calculate_kpis tOne).total_orders = tOne.rows.length ∧
     ("total_order_value" ∉ tOne.cols → (calculate_kpis tOne).total_revenue = 0) ∧
     ("review_score" ∉ tOne.cols → (calculate_kpis tOne).avg_rating = 0) ∧
     ("freight_value" ∉ tOne.cols → (calculate_kpis tOne).avg_freight_cost = 0) ∧
     ("customer_unique_id" ∉ tOne.cols → (calculate_kpis tOne).total_customers = 0) ∧
     ("price" ∉ tOne.cols → (calculate_kpis tOne).avg_price = 0)) :=
  ⟨by decide, calculate_kpis_nonempty tOne (by decide)⟩

/-- C10: the distinct customer count never exceeds the order count, and
both are 0 on an empty table. -/
theorem total_customers_le_total_orders (t : Table) :
    (calculate_kpis t).total_customers ≤ (calculate_kpis t).total_orders ∧
    (t.rows = [] →
      (calculate_kpis t).total_customers = 0 ∧ (calculate_kpis t).total_orders = 0) := by
  constructor
  · unfold calculate_kpis
    by_cases h : t.rows.length = 0
    · rw [if_pos h]
    · rw [if_neg h]
      dsimp only
      by_cases hc : "customer_unique_id" ∈ t.cols
      · rw [if_pos hc]
        calc nunique t "customer_unique_id"
            ≤ (colValues t "customer_unique_id").length :=
              List.Sublist.length_le (List.dedup_sublist _)
          _ ≤ t.rows.length := List.length_filterMap_le _ _
      · rw [if_neg hc]
        exact Nat.zero_le _
  · intro h
    rw [calculate_kpis_empty t h]
    exact ⟨rfl, rfl⟩

/-- Witness for C10 at the concrete empty table. -/
theorem total_customers_le_total_orders_witness :
    (calculate_kpis tEmpty).total_customers ≤ (calculate_kpis tEmpty).total_orders ∧
    (tEmpty.rows = [] →
      (calculate_kpis tEmpty).total_customers = 0 ∧ (calculate_kpis tEmpty).total_orders = 0) :=
  total_customers_le_total_orders tEmpty

/-- The selection list backing each of the three multi-select columns. -/
def selOf (s : Selections) : String → List Value
  | "order_month" => s.months
  | "product_category_name_english" => s.categories
  | "customer_state" => s.states
  | _ => []

lemma isinPred_nil (c : String) (r : Row) : isinPred c [] r = false := by
  unfold isinPred
  cases getCell r c <;> rfl

/-- C4: with every other selection unrestricted, a multi-select list not
containing `"All"` keeps exactly the rows whose backing-column value is
in the list; in particular the empty list yields zero rows. -/
theorem apply_filters_single_multiselect (t : Table) (s : Selections) (c : String)
    (hcm : c = "order_month" ∨ c = "product_category_name_english" ∨ c = "customer_state")
    (hcc : c ∈ t.cols)
    (hall : Value.str "All" ∉ selOf s c)
    (hoth : ∀ c2 ∈ (["order_month", "product_category_name_english", "customer_state"] :
      List String), c2 ≠ c → Value.str "All" ∈ selOf s c2)
    (hp : s.payment = Value.str "All")
    (hlo : s.minReview = observedMin t)
    (hhi : s.maxReview = observedMax t)
    (hnum : ∀ r ∈ t.rows, "review_score" ∈ t.cols →
      (toNum (getCell r "review_score")).isSome) :
    (apply_filters t s).rows = t.rows.filter (isinPred c (selOf s c)) ∧
    (selOf s c = [] → (apply_filters t s).rows = []) := by
  have key : (apply_filters t s).rows = t.rows.filter (isinPred c (selOf s c)) := by
    rw [apply_filters_eq]
    refine List.filter_congr (fun r hr => ?_)
    have hb4 : (if "review_score" ∈ t.cols then
        reviewPred s.minReview s.maxReview r else true) = true := by
      by_cases h4 : "review_score" ∈ t.cols
      · obtain ⟨q, hq⟩ := Option.isSome_iff_exists.mp (hnum r hr h4)
        have hqmem : q ∈ numCells t "review_score" := List.mem_filterMap.mpr ⟨r, hr, hq⟩
        have hql : s.minReview ≤ q := hlo ▸ observedMin_le t q hqmem
        have hqh : q ≤ s.maxReview := hhi ▸ le_observedMax t q hqmem
        simp [if_pos h4, reviewPred, hq, hql, hqh]
      · simp [if_neg h4]
    have h5 : ¬("payment_type" ∈ t.cols ∧ s.payment ≠ Value.str "All") := fun hx => hx.2 hp
    rcases hcm with h | h | h <;> subst h
    · have hm2 : Value.str "All" ∈ s.categories := by
        simpa [selOf] using hoth "product_category_name_english" (by decide) (by decide)
      have hm3 : Value.str "All" ∈ s.states := by
        simpa [selOf] using hoth "customer_state" (by decide) (by decide)
      have g1 : "order_month" ∈ t.cols ∧ Value.str "All" ∉ s.months :=
        ⟨hcc, by simpa [selOf] using hall⟩
      have g2 : ¬("product_category_name_english" ∈ t.cols ∧
          Value.str "All" ∉ s.categories) := fun hx => hx.2 hm2
      have g3 : ¬("customer_state" ∈ t.cols ∧ Value.str "All" ∉ s.states) :=
        fun hx => hx.2 hm3
      simp [rowPass, if_pos g1, if_neg g2, if_neg g3, hb4, if_neg h5, selOf]
    · have hm1 : Value.str "All" ∈ s.months := by
        simpa [selOf] using hoth "order_month" (by decide) (by decide)
      have hm3 : Value.str "All" ∈ s.states := by
        simpa [selOf] using hoth "customer_state" (by decide) (by decide)
      have g1 : ¬("order_month" ∈ t.cols ∧ Value.str "All" ∉ s.months) := fun hx => hx.2 hm1
      have g2 : "product_category_name_english" ∈ t.cols ∧
          Value.str "All" ∉ s.categories := ⟨hcc, by simpa [selOf] using hall⟩
      have g3 : ¬("customer_state" ∈ t.cols ∧ Value.str "All" ∉ s.states) :=
        fun hx => hx.2 hm3
      simp [rowPass, if_neg g1, if_pos g2, if_neg g3, hb4, if_neg h5, selOf]
    · have hm1 : Value.str "All" ∈ s.months := by
        simpa [selOf] using hoth "order_month" (by decide) (by decide)
      have hm2 : Value.str "All" ∈ s.categories := by
        simpa [selOf] using hoth "product_category_name_english" (by decide) (by decide)
      have g1 : ¬("order_month" ∈ t.cols ∧ Value.str "All" ∉ s.months) := fun hx => hx.2 hm1
      have g2 : ¬("product_category_name_english" ∈ t.cols ∧
          Value.str "All" ∉ s.categories) := fun hx => hx.2 hm2
      have g3 : "customer_state" ∈ t.cols ∧ Value.str "All" ∉ s.states :=
        ⟨hcc, by simpa [selOf] using hall⟩
      simp [rowPass, if_neg g1, if_neg g2, if_pos g3, hb4, if_neg h5, selOf]
  refine ⟨key, fun hnil => ?_⟩
  rw [key, hnil]
  calc t.rows.filter (isinPred c [])
      = t.rows.filter (fun _ => false) :=
        List.filter_congr (fun r _ => isinPred_nil c r)
    _ = [] := by simp

/-- Concrete table with a lone `customer_state` column. -/
def tStates : Table :=
  ⟨["customer_state"],
   [[("customer_state", Value.str "SP")], [("customer_state", Value.str "RJ")]]⟩

/-- Selections restricting only the state multi-select, to `["SP"]`. -/
def sStateOnly : Selections :=
  ⟨[Value.str "All"], [Value.str "All"], [Value.str "SP"], 1, 5, Value.str "All"⟩

/-- Witness for C4 at a concrete table and state-only selection. -/
theorem apply_filters_single_multiselect_witness :
    (apply_filters tStates sStateOnly).rows =
      tStates.rows.filter (isinPred "customer_state" (selOf sStateOnly "customer_state")) ∧
    (selOf sStateOnly "customer_state" = [] →
      (apply_filters tStates sStateOnly).rows = []) :=
  apply_filters_single_multiselect tStates sStateOnly "customer_state"
    (Or.inr (Or.inr rfl)) (by decide) (by decide) (by decide) rfl (by decide) (by decide)
    (by decide)

/-- Stable insertion into a list sorted by `le`. -/
def insertLe (le : α → α → Bool) (x : α) : List α → List α
  | [] => [x]
  | y :: ys => if le x y then x :: y :: ys else y :: insertLe le x ys

/-- Stable sort by `le` (insertion sort), modelling `sort_values` /
sorted group keys. -/
def sortLe (le : α → α → Bool) (l : List α) : List α :=
  l.foldr (insertLe le) []

/-- Lexicographic string order over the character lists. -/
def strLe (a b : String) : Bool :=
  a = b || decide (a.data < b.data)

/-- Ordering on cell values: numbers numerically, strings
lexicographically (all group keys of one column share a kind). -/
def Value.le : Value → Value → Bool
  | Value.num a, Value.num b => decide (a ≤ b)
  | Value.num _, Value.str _ => true
  | Value.str _, Value.num _ => false
  | Value.str a, Value.str b => strLe a b

/-- The rows of the group with key `k`, as in `df.groupby(key)`. -/
def groupRows (t : Table) (key : String) (k : Value) : List Row :=
  t.rows.filter (fun r => decide (getCell r key = some k))

/-- `df.groupby(key)[val].sum()`: group keys in sorted order, each with
the sum of the group's numeric `val` cells. -/
def groupSum (t : Table) (key val : String) : List (Value × ℚ) :=
  (sortLe Value.le (colValues t key).dedup).map
    (fun k => (k, sumCol ⟨t.cols, groupRows t key k⟩ val))

/-- `df.groupby(key)[val].mean()`: group keys in sorted order, each with
the mean of the group's numeric `val` cells. -/
def groupMean (t : Table) (key val : String) : List (Value × ℚ) :=
  (sortLe Value.le (colValues t key).dedup).map
    (fun k => (k, meanCol ⟨t.cols, groupRows t key k⟩ val))

/-- `df[c].value_counts()`: distinct values with their multiplicities,
ordered by descending count. -/
def valueCounts (t : Table) (c : String) : List (Value × Nat) :=
  sortLe (fun a b => decide (b.2 ≤ a.2))
    ((colValues t c).dedup.map
      (fun k => (k, ((colValues t c).filter (fun v => decide (v = k))).length)))

/-- Data of the `Top 10 States by Sales` chart (line 123):
`df.groupby('customer_state')['total_order_value'].sum()
  .sort_values(ascending=True).head(10)`. -/
def state_sales (t : Table) : List (Value × ℚ) :=
  (sortLe (fun a b => decide (a.2 ≤ b.2))
    (groupSum t "customer_state" "total_order_value")).take 10

/-- Data of the `Top 10 Product Categories by Count` chart (line 132):
`df['product_category_name_english'].value_counts().head(10)
  .sort_values(ascending=True)`. -/
def top_categories (t : Table) : List (Value × Nat) :=
  sortLe (fun a b => decide (a.2 ≤ b.2))
    ((valueCounts t "product_category_name_english").take 10)

/-- Data of the `Top 10 States by Avg Delivery Time` chart (line 156):
`df.groupby('customer_state')['delivery_days'].mean().sort_values()
  .head(10).sort_values(ascending=True)`. -/
def avg_delivery_by_state (t : Table) : List (Value × ℚ) :=
  sortLe (fun a b => decide (a.2 ≤ b.2))
    ((sortLe (fun a b => decide (a.2 ≤ b.2))
      (groupMean t "customer_state" "delivery_days")).take 10)

/-- Data of the `Avg Review Score by Payment Type` chart (line 177). -/
def avg_review_by_payment (t : Table) : List (Value × ℚ) :=
  sortLe (fun a b => decide (a.2 ≤ b.2)) (groupMean t "payment_type" "review_score")

/-- Scatter-plot point pairs from two numeric columns. -/
def scatterPairs (t : Table) (cx cy : String) : List (ℚ × ℚ) :=
  t.rows.filterMap (fun r =>
    match toNum (getCell r cx), toNum (getCell r cy) with
    | some a, some b => some (a, b)
    | _, _ => none)

/-- Box-plot pairs: a grouping value with a numeric measurement. -/
def boxPairs (t : Table) (cx cy : String) : List (Value × ℚ) :=
  t.rows.filterMap (fun r =>
    match getCell r cx, toNum (getCell r cy) with
    | some v, some b => some (v, b)
    | _, _ => none)

/-- The chart descriptors emitted by `create_visualizations`, each with
its computed data. -/
inductive Chart where
  | monthlySales : List (Value × ℚ) → Chart
  | stateSales : List (Value × ℚ) → Chart
  | topCategories : List (Value × Nat) → Chart
  | priceHistogram : List ℚ → Chart
  | priceFreightScatter : List (ℚ × ℚ) → Chart
  | deliveryByReview : List (Value × ℚ) → Chart
  | avgDeliveryByState : List (Value × ℚ) → Chart
  | delayScatter : List (ℚ × ℚ) → Chart
  | paymentPie : List (Value × Nat) → Chart
  | avgReviewByPayment : List (Value × ℚ) → Chart
deriving DecidableEq, Repr

/-- The columns a chart descriptor is built from (its emission guard). -/
def chartCols : Chart → List String
  | Chart.monthlySales _ => ["order_month", "total_order_value"]
  | Chart.stateSales _ => ["customer_state", "total_order_value"]
  | Chart.topCategories _ => ["product_category_name_english"]
  | Chart.priceHistogram _ => ["price"]
  | Chart.priceFreightScatter _ => ["price", "freight_value"]
  | Chart.deliveryByReview _ => ["review_score", "delivery_days"]
  | Chart.avgDeliveryByState _ => ["customer_state", "delivery_days"]
  | Chart.delayScatter _ => ["estimated_days", "delivery_delay"]
  | Chart.paymentPie _ => ["payment_type"]
  | Chart.avgReviewByPayment _ => ["payment_type", "review_score"]

/-- The column requirements of the full chart catalog, in emission order. -/
def allChartReqs : List (List String) :=
  [["order_month", "total_order_value"],
   ["customer_state", "total_order_value"],
   ["product_category_name_english"],
   ["price"],
   ["price", "freight_value"],
   ["review_score", "delivery_days"],
   ["customer_state", "delivery_days"],
   ["estimated_days", "delivery_delay"],
   ["payment_type"],
   ["payment_type", "review_score"]]

/-- `create_visualizations` (lines 109-180 of `ecommerce.py`): each chart
is emitted exactly when its source columns are present. -/
def create_visualizations (t : Table) : List Chart :=
  (if "order_month" ∈ t.cols ∧ "total_order_value" ∈ t.cols then
    [Chart.monthlySales (groupSum t "order_month" "total_order_value")] else [])
  ++ (if "customer_state" ∈ t.cols ∧ "total_order_value" ∈ t.cols then
    [Chart.stateSales (state_sales t)] else [])
  ++ (if "product_category_name_english" ∈ t.cols then
    [Chart.topCategories (top_categories t)] else [])
  ++ (if "price" ∈ t.cols then
    [Chart.priceHistogram (numCells t "price")] else [])
  ++ (if "price" ∈ t.cols ∧ "freight_value" ∈ t.cols then
    [Chart.priceFreightScatter (scatterPairs t "price" "freight_value")] else [])
  ++ (if "review_score" ∈ t.cols ∧ "delivery_days" ∈ t.cols then
    [Chart.deliveryByReview (boxPairs t "review_score" "delivery_days")] else [])
  ++ (if "customer_state" ∈ t.cols ∧ "delivery_days" ∈ t.cols then
    [Chart.avgDeliveryByState (avg_delivery_by_state t)] else [])
  ++ (if "estimated_days" ∈ t.cols ∧ "delivery_delay" ∈ t.cols then
    [Chart.delayScatter (scatterPairs t "estimated_days" "delivery_delay")] else [])
  ++ (if "payment_type" ∈ t.cols then
    [Chart.paymentPie (valueCounts t "payment_type")] else [])
  ++ (if "payment_type" ∈ t.cols ∧ "review_score" ∈ t.cols then
    [Chart.avgReviewByPayment (avg_review_by_payment t)] else [])

/-- A row of the eleven-state table: one state label with one order value. -/
def stateRow (code : String) (v : ℚ) : Row :=
  [("customer_state", Value.str code), ("total_order_value", Value.num v)]

/-- Eleven states `SA` … `SK` whose summed order values are `1` … `11`. -/
def tEleven : Table :=
  ⟨["customer_state", "total_order_value"],
   [stateRow "SA" 1, stateRow "SB" 2, stateRow "SC" 3, stateRow "SD" 4,
    stateRow "SE" 5, stateRow "SF" 6, stateRow "SG" 7, stateRow "SH" 8,
    stateRow "SI" 9, stateRow "SJ" 10, stateRow "SK" 11]⟩

/-- C1 (code evaluation at the failing input): on `tEleven` the
`Top 10 States by Sales` data keeps the ten states with the SMALLEST
summed order values and drops the largest state `SK`, while the claim
(and the chart title) require the ten largest. -/
lemma sumCol_single (t : Table) (c : String) (q : ℚ) (h : numCells t c = [q]) :
    sumCol t c = q := by
  rw [sumCol, h]
  simp

lemma groupSum_tEleven :
    groupSum tEleven "customer_state" "total_order_value" =
      [(Value.str "SA", 1), (Value.str "SB", 2), (Value.str "SC", 3),
       (Value.str "SD", 4), (Value.str "SE", 5), (Value.str "SF", 6),
       (Value.str "SG", 7), (Value.str "SH", 8), (Value.str "SI", 9),
       (Value.str "SJ", 10), (Value.str "SK", 11)] := by
  have hk : sortLe Value.le (colValues tEleven "customer_state").dedup =
      [Value.str "SA", Value.str "SB", Value.str "SC", Value.str "SD",
       Value.str "SE", Value.str "SF", Value.str "SG", Value.str "SH",
       Value.str "SI", Value.str "SJ", Value.str "SK"] := by decide
  rw [groupSum, hk]
  simp only [List.map_cons, List.map_nil]
  rw [sumCol_single _ _ 1 (by decide), sumCol_single _ _ 2 (by decide),
    sumCol_single _ _ 3 (by decide), sumCol_single _ _ 4 (by decide),
    sumCol_single _ _ 5 (by decide), sumCol_single _ _ 6 (by decide),
    sumCol_single _ _ 7 (by decide), sumCol_single _ _ 8 (by decide),
    sumCol_single _ _ 9 (by decide), sumCol_single _ _ 10 (by decide),
    sumCol_single _ _ 11 (by decide)]

theorem state_sales_takes_bottom_ten :
    state_sales tEleven =
      [(Value.str "SA", 1), (Value.str "SB", 2), (Value.str "SC", 3),
       (Value.str "SD", 4), (Value.str "SE", 5), (Value.str "SF", 6),
       (Value.str "SG", 7), (Value.str "SH", 8), (Value.str "SI", 9),
       (Value.str "SJ", 10)] ∧
    (Value.str "SK", (11 : ℚ)) ∉ state_sales tEleven := by
  have h : state_sales tEleven =
      [(Value.str "SA", 1), (Value.str "SB", 2), (Value.str "SC", 3),
       (Value.str "SD", 4), (Value.str "SE", 5), (Value.str "SF", 6),
       (Value.str "SG", 7), (Value.str "SH", 8), (Value.str "SI", 9),
       (Value.str "SJ", 10)] := by
    rw [state_sales, groupSum_tEleven]
    decide
  refine ⟨h, ?_⟩
  rw [h]
  decide

/-- Drop a column from a table: from the column list and from every row. -/
def removeCol (t : Table) (c : String) : Table :=
  ⟨t.cols.filter (fun x => decide (x ≠ c)),
   t.rows.map (fun r => r.filter (fun p => decide (p.1 ≠ c)))⟩

lemma not_mem_removeCol (t : Table) (c : String) : c ∉ (removeCol t c).cols := by
  simp [removeCol]

lemma mem_removeCol_ne (t : Table) (c x : String) (hx : x ∈ (removeCol t c).cols) :
    x ≠ c := by
  intro he
  subst he
  exact not_mem_removeCol t x hx

/-- `apply_filters` with the predicate of column `c` explicitly skipped:
each stage's guard additionally requires its column to differ from `c`. -/
def apply_filters_except (t : Table) (s : Selections) (c : String) : Table :=
  let r0 := t.rows
  let r1 := if "order_month" ∈ t.cols ∧ "order_month" ≠ c ∧ Value.str "All" ∉ s.months then
      r0.filter (isinPred "order_month" s.months) else r0
  let r2 := if "product_category_name_english" ∈ t.cols ∧
      "product_category_name_english" ≠ c ∧ Value.str "All" ∉ s.categories then
      r1.filter (isinPred "product_category_name_english" s.categories) else r1
  let r3 := if "customer_state" ∈ t.cols ∧ "customer_state" ≠ c ∧
      Value.str "All" ∉ s.states then
      r2.filter (isinPred "customer_state" s.states) else r2
  let r4 := if "review_score" ∈ t.cols ∧ "review_score" ≠ c then
      r3.filter (reviewPred s.minReview s.maxReview) else r3
  let r5 := if "payment_type" ∈ t.cols ∧ "payment_type" ≠ c ∧
      s.payment ≠ Value.str "All" then
      r4.filter (eqPred "payment_type" s.payment) else r4
  ⟨t.cols, r5⟩

/-- Row predicate of `apply_filters_except`, analogous to `rowPass`. -/
def rowPassExcept (cols : List String) (s : Selections) (c : String) (r : Row) : Bool :=
  (if "order_month" ∈ cols ∧ "order_month" ≠ c ∧ Value.str "All" ∉ s.months then
      isinPred "order_month" s.months r else true)
  && ((if "product_category_name_english" ∈ cols ∧
      "product_category_name_english" ≠ c ∧ Value.str "All" ∉ s.categories then
      isinPred "product_category_name_english" s.categories r else true)
  && ((if "customer_state" ∈ cols ∧ "customer_state" ≠ c ∧
      Value.str "All" ∉ s.states then
      isinPred "customer_state" s.states r else true)
  && ((if "review_score" ∈ cols ∧ "review_score" ≠ c then
      reviewPred s.minReview s.maxReview r else true)
  && (if "payment_type" ∈ cols ∧ "payment_type" ≠ c ∧ s.payment ≠ Value.str "All" then
      eqPred "payment_type" s.payment r else true))))

lemma apply_filters_except_eq (t : Table) (s : Selections) (c : String) :
    apply_filters_except t s c = ⟨t.cols, t.rows.filter (rowPassExcept t.cols s c)⟩ := by
  unfold apply_filters_except
  dsimp only
  rw [if_filter, if_filter, if_filter, if_filter, if_filter]
  simp only [List.filter_filter]
  congr 1
  refine List.filter_congr (fun r _ => ?_)
  simp only [rowPassExcept]
  generalize (if "order_month" ∈ t.cols ∧ "order_month" ≠ c ∧ Value.str "All" ∉ s.months then
      isinPred "order_month" s.months r else true) = b1
  generalize (if "product_category_name_english" ∈ t.cols ∧
      "product_category_name_english" ≠ c ∧ Value.str "All" ∉ s.categories then
      isinPred "product_category_name_english" s.categories r else true) = b2
  generalize (if "customer_state" ∈ t.cols ∧ "customer_state" ≠ c ∧
      Value.str "All" ∉ s.states then
      isinPred "customer_state" s.states r else true) = b3
  generalize (if "review_score" ∈ t.cols ∧ "review_score" ≠ c then
      reviewPred s.minReview s.maxReview r else true) = b4
  generalize (if "payment_type" ∈ t.cols ∧ "payment_type" ≠ c ∧
      s.payment ≠ Value.str "All" then
      eqPred "payment_type" s.payment r else true) = b5
  cases b1 <;> cases b2 <;> cases b3 <;> cases b4 <;> cases b5 <;> rfl

/-- The KPI metric backed by a column (`0` for a non-KPI column). -/
def metricFor (k : KPIs) : String → ℚ
  | "total_order_value" => k.total_revenue
  | "review_score" => k.avg_rating
  | "freight_value" => k.avg_freight_cost
  | "customer_unique_id" => (k.total_customers : ℚ)
  | "price" => k.avg_price
  | _ => 0

lemma metricFor_remove (t : Table) (c : String) :
    metricFor (calculate_kpis (removeCol t c)) c = 0 := by
  by_cases h : (removeCol t c).rows.length = 0
  · have hz : calculate_kpis (removeCol t c) = ⟨0, 0, 0, 0, 0, 0⟩ := by
      rw [calculate_kpis, if_pos h]
    rw [hz]
    unfold metricFor
    split <;> simp
  · unfold metricFor
    split <;> simp_all [calculate_kpis, not_mem_removeCol]

lemma create_viz_sound (t : Table) :
    ∀ ch ∈ create_visualizations t, ∀ x ∈ chartCols ch, x ∈ t.cols := by
  intro ch hch
  unfold create_visualizations at hch
  simp only [List.append_assoc, List.mem_append] at hch
  rcases hch with h | h | h | h | h | h | h | h | h | h <;>
    (split at h <;> simp_all [chartCols])

lemma create_viz_complete (t : Table) :
    ∀ req ∈ allChartReqs, (∀ x ∈ req, x ∈ t.cols) →
      ∃ ch ∈ create_visualizations t, chartCols ch = req := by
  intro req hreq hsub
  unfold allChartReqs at hreq
  simp only [List.mem_cons, List.not_mem_nil, or_false] at hreq
  rcases hreq with rfl | rfl | rfl | rfl | rfl | rfl | rfl | rfl | rfl | rfl
  · refine ⟨Chart.monthlySales (groupSum t "order_month" "total_order_value"), ?_, rfl⟩
    unfold create_visualizations
    simp [hsub "order_month" (by simp), hsub "total_order_value" (by simp)]
  · refine ⟨Chart.stateSales (state_sales t), ?_, rfl⟩
    unfold create_visualizations
    simp [hsub "customer_state" (by simp), hsub "total_order_value" (by simp)]
  · refine ⟨Chart.topCategories (top_categories t), ?_, rfl⟩
    unfold create_visualizations
    simp [hsub "product_category_name_english" (by simp)]
  · refine ⟨Chart.priceHistogram (numCells t "price"), ?_, rfl⟩
    unfold create_visualizations
    simp [hsub "price" (by simp)]
  · refine ⟨Chart.priceFreightScatter (scatterPairs t "price" "freight_value"), ?_, rfl⟩
    unfold create_visualizations
    simp [hsub "price" (by simp), hsub "freight_value" (by simp)]
  · refine ⟨Chart.deliveryByReview (boxPairs t "review_score" "delivery_days"), ?_, rfl⟩
    unfold create_visualizations
    simp [hsub "review_score" (by simp), hsub "delivery_days" (by simp)]
  · refine ⟨Chart.avgDeliveryByState (avg_delivery_by_state t), ?_, rfl⟩
    unfold create_visualizations
    simp [hsub "customer_state" (by simp), hsub "delivery_days" (by simp)]
  · refine ⟨Chart.delayScatter (scatterPairs t "estimated_days" "delivery_delay"), ?_, rfl⟩
    unfold create_visualizations
    simp [hsub "estimated_days" (by simp), hsub "delivery_delay" (by simp)]
  · refine ⟨Chart.paymentPie (valueCounts t "payment_type"), ?_, rfl⟩
    unfold create_visualizations
    simp [hsub "payment_type" (by simp)]
  · refine ⟨Chart.avgReviewByPayment (avg_review_by_payment t), ?_, rfl⟩
    unfold create_visualizations
    simp [hsub "payment_type" (by simp), hsub "review_score" (by simp)]

/-- C7: after removing any single column `c`, every component still
produces its output: the filter predicate backed by `c` is skipped, the
KPI metric backed by `c` is 0, no emitted chart depends on `c`, and every
chart whose columns all survive is still emitted. -/
theorem remove_column_degrades (t : Table) (c : String) (s : Selections) :
    apply_filters (removeCol t c) s = apply_filters_except (removeCol t c) s c ∧
    metricFor (calculate_kpis (removeCol t c)) c = 0 ∧
    (∀ ch ∈ create_visualizations (removeCol t c), c ∉ chartCols ch) ∧
    (∀ req ∈ allChartReqs, (∀ x ∈ req, x ∈ (removeCol t c).cols) →
      ∃ ch ∈ create_visualizations (removeCol t c), chartCols ch = req) := by
  refine ⟨?_, metricFor_remove t c, ?_, create_viz_complete (removeCol t c)⟩
  · rw [apply_filters_eq, apply_filters_except_eq]
    congr 1
    refine List.filter_congr (fun r _ => ?_)
    unfold rowPass rowPassExcept
    have e1 : ("order_month" ∈ (removeCol t c).cols ∧ Value.str "All" ∉ s.months) ↔
        ("order_month" ∈ (removeCol t c).cols ∧ "order_month" ≠ c ∧
          Value.str "All" ∉ s.months) :=
      ⟨fun h => ⟨h.1, mem_removeCol_ne t c _ h.1, h.2⟩, fun h => ⟨h.1, h.2.2⟩⟩
    have e2 : ("product_category_name_english" ∈ (removeCol t c).cols ∧
        Value.str "All" ∉ s.categories) ↔
        ("product_category_name_english" ∈ (removeCol t c).cols ∧
          "product_category_name_english" ≠ c ∧ Value.str "All" ∉ s.categories) :=
      ⟨fun h => ⟨h.1, mem_removeCol_ne t c _ h.1, h.2⟩, fun h => ⟨h.1, h.2.2⟩⟩
    have e3 : ("customer_state" ∈ (removeCol t c).cols ∧ Value.str "All" ∉ s.states) ↔
        ("customer_state" ∈ (removeCol t c).cols ∧ "customer_state" ≠ c ∧
          Value.str "All" ∉ s.states) :=
      ⟨fun h => ⟨h.1, mem_removeCol_ne t c _ h.1, h.2⟩, fun h => ⟨h.1, h.2.2⟩⟩
    have e4 : ("review_score" ∈ (removeCol t c).cols) ↔
        ("review_score" ∈ (removeCol t c).cols ∧ "review_score" ≠ c) :=
      ⟨fun h => ⟨h, mem_removeCol_ne t c _ h⟩, fun h => h.1⟩
    have e5 : ("payment_type" ∈ (removeCol t c).cols ∧ s.payment ≠ Value.str "All") ↔
        ("payment_type" ∈ (removeCol t c).cols ∧ "payment_type" ≠ c ∧
          s.payment ≠ Value.str "All") :=
      ⟨fun h => ⟨h.1, mem_removeCol_ne t c _ h.1, h.2⟩, fun h => ⟨h.1, h.2.2⟩⟩
    rw [if_congr e1 rfl rfl, if_congr e2 rfl rfl, if_congr e3 rfl rfl,
      if_congr e4 rfl rfl, if_congr e5 rfl rfl]
  · intro ch hch hcx
    exact not_mem_removeCol t c (create_viz_sound (removeCol t c) ch hch c hcx)

/-- Witness for C7 at a concrete table, column and selections. -/
theorem remove_column_degrades_witness :
    apply_filters (removeCol tTwo "review_score") sAll =
      apply_filters_except (removeCol tTwo "review_score") sAll "review_score" ∧
    metricFor (calculate_kpis (removeCol tTwo "review_score")) "review_score" = 0 ∧
    (∀ ch ∈ create_visualizations (removeCol tTwo "review_score"),
      "review_score" ∉ chartCols ch) ∧
    (∀ req ∈ allChartReqs, (∀ x ∈ req, x ∈ (removeCol tTwo "review_score").cols) →
      ∃ ch ∈ create_visualizations (removeCol tTwo "review_score"), chartCols ch = req) :=
  remove_column_degrades tTwo "review_score" sAll

/-- The rendered page: either the blocking error display (missing input
file) or the dashboard with the filtered table, the KPI record, the chart
catalog and the download payloads (charts and the filtered download are
emitted only when the filtered table is non-empty), plus the full-table
download built from the loaded table. -/
inductive RenderResult where
  | errorDisplay : RenderResult
  | dashboard : Table → KPIs → Option (List Chart) → Option Table → Table → RenderResult
deriving DecidableEq

/-- `load_ecommerce_data` (lines 30-37): reading the fixed path
`ecommerce.csv` from the file system (a map from path to parsed table);
`None` exactly when the file is absent (`FileNotFoundError`). -/
def load_ecommerce_data (fs : String → Option Table) : Option Table :=
  fs "ecommerce.csv"

/-- `mainView` embeds `main` (lines 182-234): on a failed load the page short-circuits to
the error display; otherwise the table is filtered once and handed to the
KPI, download and chart components. -/
def mainView (fs : String → Option Table) (s : Selections) : RenderResult :=
  match load_ecommerce_data fs with
  | none => RenderResult.errorDisplay
  | some df =>
    let filtered := apply_filters df s
    RenderResult.dashboard filtered (calculate_kpis filtered)
      (if 0 < filtered.rows.length then some (create_visualizations filtered) else none)
      (if 0 < filtered.rows.length then some filtered else none)
      df

/-- C8: the load yields `None` (the `NotFound` condition) exactly when
the input file is absent, and in that case `main` renders only the error
display — no filter, KPI, chart or export output is produced. -/
theorem load_notfound_short_circuits (fs : String → Option Table) (s : Selections) :
    (load_ecommerce_data fs = none ↔ fs "ecommerce.csv" = none) ∧
    (mainView fs s = RenderResult.errorDisplay ↔ fs "ecommerce.csv" = none) := by
  refine ⟨Iff.rfl, ?_, ?_⟩
  · intro h
    cases hf : fs "ecommerce.csv" with
    | none => rfl
    | some df =>
      rw [mainView, load_ecommerce_data, hf] at h
      cases h
  · intro h
    rw [mainView, load_ecommerce_data, h]
